import Mathlib

/-!
ProgressBar: the step widget of `src/App.jsx`

A shallow embedding of the React component `App`: its three `useState` cells, the
`useEffect` that runs when `activeStep` changes, the two click handlers, the
popup timer, and the expressions of the JSX tree that depend on the state.

Numbers. `activeStep` only ever holds `0` or a successor, so it is a `Nat`.
The JavaScript expressions `activeStep / (steps.length - 1) * 100` are evaluated
here over `ℚ`. With the constant `steps` of the source (`steps.length = 5`) the
quotients `k / 4` and the products `k / 4 * 100`, `k ≤ 5`, are dyadic rationals with
a few significant bits, so the IEEE double results of the source are these exact
rationals.

React. A render calls `App`, which reads the cells into constants and creates the
handlers and the effect callback as closures over these constants. So inside
`handleNext` and inside the effect the name `activeStep` is the value the cell had
at the last render (the field `rendered`), while the updater `prev => prev + 1`
receives the cell itself. An event (a click or the timeout) runs its handler,
which updates the cells; React then renders (`renderPass`), commits the tree, and
runs the effect when its dependency differs from the value of the previous run,
calling the cleanup returned by the previous run first. `dispatch` is one such
round for one event; `batch` is a round in which several events are handled
against the same render.
-/

namespace ProgressBar

/-! ## Data model -/

/-- The constant `steps`. -/
def steps : List String :=
  ["Started", "Planning", "Developing", "Executing", "Complete"]

/-- A callback scheduled with `setTimeout` and not yet run or cleared: the id that
`setTimeout` returned and the delay in milliseconds. The only callback the
component schedules is `() => setShowPopup(false)`. -/
structure Timer where
  id : Nat
  delay : Nat
deriving DecidableEq, Repr

/-- The state of a mounted `App`. `activeStep`, `progress`, `showPopup` are the three
`useState` cells. `timers` are the pending timeouts, `nextTimer` the id the next
`setTimeout` returns. `cleanup` is the function returned by the last run of the
effect (`some t` for `() => clearTimeout(t)`, `none` for `undefined`), and `deps`
the value of the dependency array `[activeStep]` at that run (`none` before the
first run). `rendered` is the value of the cell `activeStep` at the last render:
the constant `activeStep` that the closures created by that render read. -/
structure State where
  activeStep : Nat
  progress : Int
  showPopup : Bool
  timers : List Timer
  nextTimer : Nat
  cleanup : Option Nat
  deps : Option Nat
  rendered : Nat
deriving DecidableEq, Repr

/-- The events the component reacts to: a click on the Next/Submit button, a click
on the Restart button, and the expiry of the timeout with the given id. -/
inductive Event where
  | next
  | restart
  | timeout (id : Nat)
deriving DecidableEq, Repr

/-! ## The effect -/

/-- The `percentage` of the effect, as a function of the constant `activeStep`:
`activeStep >= steps.length ? 100 : Math.floor((activeStep / (steps.length - 1)) * 100)`. -/
def percentage (activeStep : Nat) : Int :=
  if activeStep ≥ steps.length then 100
  else ⌊((activeStep : ℚ) / ((steps.length : ℚ) - 1)) * 100⌋

/-- The browser's `clearTimeout(id)`: the timeout with that id, if pending, is dropped. -/
def clearTimeout (id : Nat) (ts : List Timer) : List Timer :=
  ts.filter (fun t => t.id != id)

/-- React calls the cleanup function of the previous run of the effect, if that run
returned one. -/
def runCleanup (s : State) : State :=
  match s.cleanup with
  | some id => { s with timers := clearTimeout id s.timers, cleanup := none }
  | none => s

/-- The body of the effect: `setProgress(percentage)`; and when
`activeStep === steps.length`, `setShowPopup(true)`, a timeout of 2000 ms is
scheduled and the cleanup `() => clearTimeout(timer)` is returned. The callback is
a closure of the last render, so its `activeStep` is `rendered`. -/
def effectBody (s : State) : State :=
  let s1 := { s with progress := percentage s.rendered }
  if s1.rendered = steps.length then
    { s1 with
      showPopup := true
      timers := s1.timers ++ [⟨s1.nextTimer, 2000⟩]
      nextTimer := s1.nextTimer + 1
      cleanup := some s1.nextTimer }
  else
    { s1 with cleanup := none }

/-- The hook `useEffect(..., [activeStep])` after a render: nothing happens when
the rendered `activeStep` is the value of the previous run; otherwise the previous
cleanup is called and the body runs. -/
def useEffect (s : State) : State :=
  if s.deps = some s.rendered then s
  else effectBody { runCleanup s with deps := some s.rendered }

/-! ## Handlers and events -/

/-- The handler `handleNext`:
`if (activeStep < steps.length) setActiveStep((prev) => prev + 1)`. The guard reads
the constant `activeStep` of the render that created the handler (`rendered`); the
updater adds one to the cell. -/
def handleNext (s : State) : State :=
  if s.rendered < steps.length then { s with activeStep := s.activeStep + 1 }
  else s

/-- The handler `handleRestart`. -/
def handleRestart (s : State) : State :=
  { s with activeStep := 0, progress := 0, showPopup := false }

/-- The timeout `id` expires: if it is pending, it leaves the pending set and its
callback `() => setShowPopup(false)` runs. A timeout that is not pending cannot
expire. -/
def fireTimer (id : Nat) (s : State) : State :=
  if s.timers.any (fun t => t.id == id) then
    { s with timers := s.timers.filter (fun t => t.id != id), showPopup := false }
  else s

/-- The state updates of the handler of an event. -/
def handle : Event → State → State
  | .next, s => handleNext s
  | .restart, s => handleRestart s
  | .timeout id, s => fireTimer id s

/-- A render: `App` is called and reads the cell `activeStep`; the handlers and the
effect callback it creates see this value until the next render. -/
def renderPass (s : State) : State :=
  { s with rendered := s.activeStep }

/-- One round: the handler of the event, the render that its updates cause, then
the effect. The render that follows the updates of the effect reads the same
`activeStep`, which the effect does not write. -/
def dispatch (e : Event) (s : State) : State :=
  useEffect (renderPass (handle e s))

/-- A round in which the handlers of several events run against the same render,
before React renders again: the handlers in order, one render, then the effect. -/
def batch (es : List Event) (s : State) : State :=
  useEffect (renderPass (es.foldl (fun s e => handle e s) s))

/-- The `useState` initial values, before the first render. -/
def unmounted : State :=
  { activeStep := 0, progress := 0, showPopup := false,
    timers := [], nextTimer := 0, cleanup := none, deps := none, rendered := 0 }

/-- The state after mounting: first render, then the effect runs once. -/
def mount : State := useEffect (renderPass unmounted)

/-- The state after mounting and a sequence of events. -/
def run (es : List Event) : State :=
  es.foldl (fun s e => dispatch e s) mount

/-- States reachable from the mounted component by events, each event followed by
its render and the effect. -/
inductive Reachable : State → Prop where
  | mount : Reachable mount
  | step (e : Event) {s : State} : Reachable s → Reachable (dispatch e s)

/-- States the component passes through: the reachable states, and inside a round
that starts in one, the state after the handler of the event and the state after
the render that follows, whose tree React commits before the effect runs. -/
inductive Occurs : State → Prop where
  | settled {s : State} : Reachable s → Occurs s
  | handled (e : Event) {s : State} : Reachable s → Occurs (handle e s)
  | rendered (e : Event) {s : State} : Reachable s → Occurs (renderPass (handle e s))

/-! ## Rendering -/

/-- The constant `radius`. -/
def radius : ℚ := 70

/-- The constant `stroke`. -/
def stroke : ℚ := 8

/-- The constant `normalizedRadius = radius - stroke * 2`. -/
def normalizedRadius : ℚ := radius - stroke * 2

/-- The constant `circumference = normalizedRadius * 2 * Math.PI`; the value of
`Math.PI` is the parameter `pi`. -/
def circumference (pi : ℚ) : ℚ := normalizedRadius * 2 * pi

/-- The value `strokeDashoffset = circumference - (progress / 100) * circumference`. -/
def strokeDashoffset (pi : ℚ) (progress : Int) : ℚ :=
  circumference pi - ((progress : ℚ) / 100) * circumference pi

/-- The width of the horizontal fill bar, in percent:
`(activeStep / (steps.length - 1)) * 100`. -/
def fillWidth (activeStep : Nat) : ℚ :=
  ((activeStep : ℚ) / ((steps.length : ℚ) - 1)) * 100

/-- The two glyphs a marker can show: the rocket of the `emoji` span and the check
mark of the `tick` span. -/
inductive Glyph where
  | emoji
  | tick
deriving DecidableEq, Repr

/-- The `isCompleted` of a marker: `idx < activeStep`. -/
def isCompleted (idx activeStep : Nat) : Bool := decide (idx < activeStep)

/-- The `isLastStep` of a marker: `activeStep === steps.length`. -/
def isLastStep (activeStep : Nat) : Bool := decide (activeStep = steps.length)

/-- The colour classes of a marker. -/
def markerClass (idx activeStep : Nat) : String :=
  if isCompleted idx activeStep || isLastStep activeStep then
    "bg-green-500 border-green-500 text-white"
  else
    "bg-white border-blue-300 text-blue-300"

/-- The child of a marker:
`activeStep === idx && !isLastStep ? emoji : isCompleted || isLastStep ? tick : null`. -/
def markerGlyph (idx activeStep : Nat) : Option Glyph :=
  if decide (activeStep = idx) && !isLastStep activeStep then some Glyph.emoji
  else if isCompleted idx activeStep || isLastStep activeStep then some Glyph.tick
  else none

/-- The label of the Next/Submit button, rendered when `activeStep < steps.length`. -/
def primaryButton (activeStep : Nat) : Option String :=
  if activeStep < steps.length then
    some (if activeStep = steps.length - 1 then "Submit" else "Next")
  else none

/-- The label of the Restart button, rendered when `activeStep === steps.length`. -/
def restartButton (activeStep : Nat) : Option String :=
  if activeStep = steps.length then some "Restart" else none

/-- The step info line, rendered when `activeStep < steps.length`: `steps[activeStep]`. -/
def stepInfo (activeStep : Nat) : Option String :=
  if activeStep < steps.length then steps[activeStep]? else none

/-- The text in the centre of the gauge: the check mark at the end, else
the stored `progress` followed by `%`; `none` stands for the check mark. -/
def gaugeLabel (s : State) : Option String :=
  if s.activeStep = steps.length then none else some (toString s.progress ++ "%")

/-- The parts of the rendered tree that depend on the state. -/
structure View where
  gaugeStroke : String
  gaugeOffset : ℚ
  gaugeTextClass : String
  gaugeText : Option String
  fillClass : String
  fill : ℚ
  markers : List (String × Option Glyph)
  info : Option String
  primary : Option String
  restart : Option String
  popup : Bool
deriving DecidableEq

/-- The JSX returned by `App`, as a function of the three state cells. -/
def render (pi : ℚ) (s : State) : View :=
  { gaugeStroke := if s.activeStep = steps.length then "#22c55e" else "#3b82f6"
    gaugeOffset := strokeDashoffset pi s.progress
    gaugeTextClass := if s.activeStep = steps.length then "text-green-600" else "text-blue-700"
    gaugeText := gaugeLabel s
    fillClass := if s.activeStep = steps.length then "bg-green-500" else "bg-blue-500"
    fill := fillWidth s.activeStep
    markers := (List.range steps.length).map
      (fun idx => (markerClass idx s.activeStep, markerGlyph idx s.activeStep))
    info := stepInfo s.activeStep
    primary := primaryButton s.activeStep
    restart := restartButton s.activeStep
    popup := s.showPopup }

/-- The same tree with the derived fields in place of the stored ones: the gauge
reads `percentage activeStep` instead of the cell `progress`. -/
def renderFrom (pi : ℚ) (activeStep : Nat) (showPopup : Bool) : View :=
  render pi { unmounted with
    activeStep := activeStep, progress := percentage activeStep, showPopup := showPopup }


/-- The three shapes of a state between two rounds. -/
inductive Settled : State → Prop where
  | running (k n : Nat) (hk : k < steps.length) :
      Settled ⟨k, percentage k, false, [], n, none, some k, k⟩
  | popup (id n : Nat) :
      Settled ⟨steps.length, 100, true, [⟨id, 2000⟩], n, some id, some steps.length,
        steps.length⟩
  | done (id n : Nat) :
      Settled ⟨steps.length, 100, false, [], n, some id, some steps.length, steps.length⟩

theorem steps_length : steps.length = 5 := rfl

theorem percentage_lt (k : Nat) (hk : k < steps.length) :
    percentage k = ((k * 100 / 4 : Nat) : Int) := by
  rw [steps_length] at hk
  have h : ¬ k ≥ steps.length := by rw [steps_length]; omega
  rw [percentage, if_neg h, steps_length]
  interval_cases k <;> norm_num [Int.floor_eq_iff]

theorem percentage_ge (k : Nat) (hk : steps.length ≤ k) : percentage k = 100 := by
  rw [percentage, if_pos hk]

theorem percentage_zero : percentage 0 = 0 := by
  rw [percentage_lt 0 (by decide)]; rfl

theorem settled_mount : Settled mount := by
  have h : mount = ⟨0, percentage 0, false, [], 0, none, some 0, 0⟩ := by
    simp [mount, useEffect, renderPass, unmounted, effectBody, runCleanup, steps]
  rw [h]
  exact Settled.running 0 0 (by decide)

theorem dispatch_next_running (k n : Nat) (hk : k + 1 < steps.length) :
    dispatch .next ⟨k, percentage k, false, [], n, none, some k, k⟩
      = ⟨k + 1, percentage (k + 1), false, [], n, none, some (k + 1), k + 1⟩ := by
  have h1 : k < steps.length := by omega
  have h2 : k + 1 ≠ steps.length := by omega
  simp [dispatch, handle, handleNext, renderPass, useEffect, effectBody, runCleanup, h1, h2]

theorem dispatch_next_last (k n : Nat) (hk : k + 1 = steps.length) :
    dispatch .next ⟨k, percentage k, false, [], n, none, some k, k⟩
      = ⟨steps.length, 100, true, [⟨n, 2000⟩], n + 1, some n, some steps.length,
          steps.length⟩ := by
  have h1 : k < steps.length := by omega
  have h2 : k ≠ steps.length := by omega
  simp [dispatch, handle, handleNext, renderPass, useEffect, effectBody, runCleanup, h1, h2, hk,
    percentage]

theorem dispatch_next_end (p : Int) (b : Bool) (ts : List Timer) (n : Nat) (c : Option Nat) :
    dispatch .next ⟨steps.length, p, b, ts, n, c, some steps.length, steps.length⟩
      = ⟨steps.length, p, b, ts, n, c, some steps.length, steps.length⟩ := by
  simp [dispatch, handle, handleNext, renderPass, useEffect]

theorem dispatch_restart_running (k n : Nat) (hk : k < steps.length) :
    dispatch .restart ⟨k, percentage k, false, [], n, none, some k, k⟩
      = ⟨0, percentage 0, false, [], n, none, some 0, 0⟩ := by
  by_cases h : k = 0
  · subst h
    simp [dispatch, handle, handleRestart, renderPass, useEffect, percentage_zero]
  · have h2 : ¬ (0 = k) := fun h3 => h h3.symm
    simp [dispatch, handle, handleRestart, renderPass, useEffect, effectBody, runCleanup, h, h2,
      steps_length]

theorem dispatch_restart_end (p : Int) (b : Bool) (ts : List Timer) (n id : Nat) :
    dispatch .restart ⟨steps.length, p, b, ts, n, some id, some steps.length, steps.length⟩
      = ⟨0, percentage 0, false, clearTimeout id ts, n, none, some 0, 0⟩ := by
  simp [dispatch, handle, handleRestart, renderPass, useEffect, effectBody, runCleanup,
    steps_length]

theorem dispatch_timeout_none (id k n : Nat) (p : Int) (b : Bool) (c : Option Nat) :
    dispatch (.timeout id) ⟨k, p, b, [], n, c, some k, k⟩ = ⟨k, p, b, [], n, c, some k, k⟩ := by
  simp [dispatch, handle, fireTimer, renderPass, useEffect]

theorem dispatch_timeout_popup (id t n : Nat) :
    dispatch (.timeout id)
        ⟨steps.length, 100, true, [⟨t, 2000⟩], n, some t, some steps.length, steps.length⟩
      = if t = id then
          ⟨steps.length, 100, false, [], n, some t, some steps.length, steps.length⟩
        else
          ⟨steps.length, 100, true, [⟨t, 2000⟩], n, some t, some steps.length,
            steps.length⟩ := by
  by_cases h : t = id
  · simp [dispatch, handle, fireTimer, renderPass, useEffect, h]
  · simp [dispatch, handle, fireTimer, renderPass, useEffect, h]

theorem settled_dispatch (e : Event) {s : State} (hs : Settled s) : Settled (dispatch e s) := by
  cases hs with
  | running k n hk =>
    cases e with
    | next =>
      by_cases h : k + 1 < steps.length
      · rw [dispatch_next_running k n h]
        exact Settled.running _ _ h
      · rw [dispatch_next_last k n (by omega)]
        exact Settled.popup _ _
    | restart =>
      rw [dispatch_restart_running k n hk]
      exact Settled.running 0 n (by decide)
    | timeout id =>
      rw [dispatch_timeout_none]
      exact Settled.running k n hk
  | popup id n =>
    cases e with
    | next => rw [dispatch_next_end]; exact Settled.popup id n
    | restart =>
      rw [dispatch_restart_end]
      have : clearTimeout id [(⟨id, 2000⟩ : Timer)] = [] := by simp [clearTimeout]
      rw [this]
      exact Settled.running 0 n (by decide)
    | timeout t =>
      rw [dispatch_timeout_popup]
      split
      · exact Settled.done id n
      · exact Settled.popup id n
  | done id n =>
    cases e with
    | next => rw [dispatch_next_end]; exact Settled.done id n
    | restart =>
      rw [dispatch_restart_end]
      exact Settled.running 0 n (by decide)
    | timeout t =>
      rw [dispatch_timeout_none]
      exact Settled.done id n

theorem settled_of_reachable {s : State} (h : Reachable s) : Settled s := by
  induction h with
  | mount => exact settled_mount
  | step e _ ih => exact settled_dispatch e ih

theorem reachable_run (es : List Event) : Reachable (run es) := by
  unfold run
  induction es using List.reverseRecOn with
  | nil => exact Reachable.mount
  | append_singleton es e ih =>
    rw [List.foldl_append]
    exact Reachable.step e ih

theorem runCleanup_activeStep (s : State) : (runCleanup s).activeStep = s.activeStep := by
  unfold runCleanup
  split <;> rfl

theorem useEffect_activeStep (s : State) : (useEffect s).activeStep = s.activeStep := by
  unfold useEffect
  split
  · rfl
  · unfold effectBody
    dsimp only
    split <;> exact runCleanup_activeStep s

theorem run_four :
    run [.next, .next, .next, .next] = ⟨4, 100, false, [], 0, none, some 4, 4⟩ := by
  have h1 : percentage 1 = 25 := by rw [percentage_lt 1 (by decide)]; rfl
  have h2 : percentage 2 = 50 := by rw [percentage_lt 2 (by decide)]; rfl
  have h3 : percentage 3 = 75 := by rw [percentage_lt 3 (by decide)]; rfl
  have h4 : percentage 4 = 100 := by rw [percentage_lt 4 (by decide)]; rfl
  simp [run, mount, dispatch, handle, handleNext, renderPass, useEffect, unmounted, effectBody,
    runCleanup, steps_length, h1, h2, h3, h4, percentage_zero]

theorem rendered_next_mount :
    renderPass (handleNext mount) = ⟨1, 0, false, [], 0, none, some 0, 1⟩ := by
  simp [handleNext, renderPass, mount, useEffect, unmounted, effectBody, runCleanup,
    steps_length, percentage_zero]

theorem dispatch_next_mount :
    dispatch .next mount = ⟨1, 25, false, [], 0, none, some 1, 1⟩ := by
  have h : percentage 1 = 25 := by rw [percentage_lt 1 (by decide)]; rfl
  simp [dispatch, handle, handleNext, renderPass, mount, useEffect, unmounted, effectBody,
    runCleanup, steps_length, h, percentage_zero]

/-- When the handler runs against a render of the current cell (`rendered` equals
`activeStep`), `handleNext` adds one below `steps.length` and changes nothing at
`steps.length`. -/
theorem handleNext_fresh (s : State) (hr : s.rendered = s.activeStep) :
    (s.activeStep < steps.length → handleNext s = { s with activeStep := s.activeStep + 1 }) ∧
    (s.activeStep = steps.length → handleNext s = s) := by
  constructor
  · intro h
    simp [handleNext, hr, h]
  · intro h
    simp [handleNext, hr, h]

/-- When every event is followed by its render, `activeStep` stays at most
`steps.length`. -/
theorem reachable_activeStep_le (s : State) (hs : Reachable s) :
    s.activeStep ≤ steps.length := by
  have h := settled_of_reachable hs
  cases h with
  | running k n hk => exact Nat.le_of_lt hk
  | popup id n => exact Nat.le_refl _
  | done id n => exact Nat.le_refl _

/-! ## The handlers -/

/-- C1: `handleNext` with a stale render. After four rounds the component is at
step 4, rendered at 4. The first click on Submit makes the cell `activeStep`
equal to `steps.length` while the handler still belongs to the render at 4. A
second call of that handler, in the state with `activeStep = steps.length`, is
not a no-op: the guard reads the rendered value 4 and the cell becomes
`steps.length + 1`. -/
theorem handleNext_stale_guard :
    (handleNext (run [.next, .next, .next, .next])).activeStep = steps.length ∧
    (handleNext (run [.next, .next, .next, .next])).rendered = steps.length - 1 ∧
    (handleNext (handleNext (run [.next, .next, .next, .next]))).activeStep
      = steps.length + 1 ∧
    handleNext (handleNext (run [.next, .next, .next, .next]))
      ≠ handleNext (run [.next, .next, .next, .next]) := by
  rw [run_four]
  simp [handleNext, steps_length]

/-- C3: in every reachable state, a click on Restart followed by the effect gives a
state with `activeStep = 0`, stored progress `0` (which is `percentage 0`), the
popup hidden and no timeout pending. -/
theorem handleRestart_spec (s : State) (hs : Reachable s) :
    (dispatch .restart s).activeStep = 0 ∧
    (dispatch .restart s).progress = 0 ∧
    percentage (dispatch .restart s).activeStep = 0 ∧
    (dispatch .restart s).showPopup = false ∧
    (dispatch .restart s).timers = [] := by
  have h := settled_of_reachable hs
  cases h with
  | running k n hk =>
    rw [dispatch_restart_running k n hk]
    exact ⟨rfl, percentage_zero, percentage_zero, rfl, rfl⟩
  | popup id n =>
    rw [dispatch_restart_end]
    exact ⟨rfl, percentage_zero, percentage_zero, rfl, by simp [clearTimeout]⟩
  | done id n =>
    rw [dispatch_restart_end]
    exact ⟨rfl, percentage_zero, percentage_zero, rfl, by simp [clearTimeout]⟩

theorem handleRestart_spec_witness :
    ((run [.next, .next, .next, .next, .next]).showPopup = true ∧
      (run [.next, .next, .next, .next, .next]).timers = [⟨0, 2000⟩]) ∧
    (dispatch .restart (run [.next, .next, .next, .next, .next])).activeStep = 0 ∧
    (dispatch .restart (run [.next, .next, .next, .next, .next])).progress = 0 ∧
    percentage (dispatch .restart (run [.next, .next, .next, .next, .next])).activeStep = 0 ∧
    (dispatch .restart (run [.next, .next, .next, .next, .next])).showPopup = false ∧
    (dispatch .restart (run [.next, .next, .next, .next, .next])).timers = [] :=
  ⟨by decide, handleRestart_spec _ (reachable_run _)⟩

/-- C4: in a reachable state with `activeStep = steps.length - 1`, a click on the
button gives `activeStep = steps.length` with the popup shown and exactly one
pending timeout, of 2000 ms; when that timeout expires the popup is hidden, no
timeout is pending, and `activeStep` is still `steps.length`. -/
theorem popup_spec (s : State) (hs : Reachable s) (h : s.activeStep = steps.length - 1) :
    (dispatch .next s).activeStep = steps.length ∧
    (dispatch .next s).showPopup = true ∧
    ∃ t : Nat, (dispatch .next s).timers = [⟨t, 2000⟩] ∧
      (dispatch (.timeout t) (dispatch .next s)).showPopup = false ∧
      (dispatch (.timeout t) (dispatch .next s)).timers = [] ∧
      (dispatch (.timeout t) (dispatch .next s)).activeStep = steps.length := by
  have hs := settled_of_reachable hs
  cases hs with
  | running k n hk =>
    have hk1 : k + 1 = steps.length := by
      simp only [steps_length] at h ⊢
      omega
    rw [dispatch_next_last k n hk1]
    refine ⟨rfl, rfl, n, rfl, ?_⟩
    rw [dispatch_timeout_popup, if_pos rfl]
    exact ⟨rfl, rfl, rfl⟩
  | popup id n => simp [steps_length] at h
  | done id n => simp [steps_length] at h

theorem popup_spec_witness :
    (run [.next, .next, .next, .next]).activeStep = steps.length - 1 ∧
    (dispatch .next (run [.next, .next, .next, .next])).activeStep = steps.length ∧
    (dispatch .next (run [.next, .next, .next, .next])).showPopup = true ∧
    ∃ t : Nat, (dispatch .next (run [.next, .next, .next, .next])).timers = [⟨t, 2000⟩] ∧
      (dispatch (.timeout t) (dispatch .next (run [.next, .next, .next, .next]))).showPopup
        = false ∧
      (dispatch (.timeout t) (dispatch .next (run [.next, .next, .next, .next]))).timers = [] ∧
      (dispatch (.timeout t) (dispatch .next (run [.next, .next, .next, .next]))).activeStep
        = steps.length :=
  ⟨by decide, popup_spec _ (reachable_run _) (by decide)⟩

/-! ## Invariants -/

/-- C7: the bound `activeStep ≤ steps.length` is exceeded. From step 4,
two clicks on Submit handled against the same render give `activeStep = 6`, above
`steps.length = 5`; after the render and the effect the cell is still 6, the popup
is hidden, neither button is rendered, and a further round changes nothing. -/
theorem activeStep_overshoot :
    (run [.next, .next, .next, .next]).activeStep = 4 ∧
    (batch [.next, .next] (run [.next, .next, .next, .next])).activeStep = 6 ∧
    ¬ (batch [.next, .next] (run [.next, .next, .next, .next])).activeStep ≤ steps.length ∧
    (batch [.next, .next] (run [.next, .next, .next, .next])).showPopup = false ∧
    primaryButton 6 = none ∧ restartButton 6 = none ∧
    (dispatch .next (batch [.next, .next] (run [.next, .next, .next, .next]))).activeStep
      = 6 := by
  have h : percentage 6 = 100 := percentage_ge 6 (by decide)
  rw [run_four]
  simp [batch, dispatch, handle, handleNext, renderPass, useEffect, effectBody, runCleanup,
    steps_length, h, primaryButton, restartButton]

/-- C8: in every reachable state in which the popup is shown, `activeStep` equals
`steps.length`. -/
theorem showPopup_terminal (s : State) (hs : Reachable s) (hp : s.showPopup = true) :
    s.activeStep = steps.length := by
  have h := settled_of_reachable hs
  cases h with
  | running k n hk => simp at hp
  | popup id n => rfl
  | done id n => rfl

theorem showPopup_terminal_witness :
    (run [.next, .next, .next, .next, .next]).showPopup = true ∧
    (run [.next, .next, .next, .next, .next]).activeStep = steps.length :=
  ⟨by decide, showPopup_terminal _ (reachable_run _) (by decide)⟩

/-! ## Derived values -/

/-- C2: for `k < steps.length` the percentage of the effect is the floor of
`k / (steps.length - 1) * 100`, which is the natural-number quotient
`k * 100 / (steps.length - 1)`; for `k ≥ steps.length` it is `100`; for every
`k ≤ steps.length` it is an integer between `0` and `100`; and its values at
`0, ..., 5` are `0, 25, 50, 75, 100, 100`. -/
theorem percentage_spec (k : Nat) :
    (k < steps.length →
      percentage k = ⌊(k : ℚ) / ((steps.length : ℚ) - 1) * 100⌋ ∧
      percentage k = ((k * 100 / (steps.length - 1) : Nat) : Int)) ∧
    (steps.length ≤ k → percentage k = 100) ∧
    (k ≤ steps.length → 0 ≤ percentage k ∧ percentage k ≤ 100) ∧
    (List.range (steps.length + 1)).map percentage = [0, 25, 50, 75, 100, 100] := by
  refine ⟨fun h => ⟨?_, percentage_lt k h⟩, percentage_ge k, fun h => ?_, ?_⟩
  · rw [percentage, if_neg (Nat.not_le_of_lt h)]
  · rcases Nat.lt_or_ge k steps.length with h1 | h1
    · rw [percentage_lt k h1]
      rw [steps_length] at h1
      constructor
      · exact Int.natCast_nonneg _
      · have : k * 100 / 4 ≤ 100 := by omega
        exact_mod_cast this
    · rw [percentage_ge k h1]
      exact ⟨by decide, by decide⟩
  · simp [steps_length, List.range_succ, percentage_lt, percentage_ge]

theorem percentage_spec_witness :
    (3 < steps.length ∧ percentage 3 = ⌊((3 : Nat) : ℚ) / ((steps.length : ℚ) - 1) * 100⌋ ∧
      percentage 3 = ((3 * 100 / (steps.length - 1) : Nat) : Int)) ∧
    (steps.length ≤ 5 ∧ percentage 5 = 100) ∧
    (4 ≤ steps.length ∧ 0 ≤ percentage 4 ∧ percentage 4 ≤ 100) :=
  ⟨⟨by decide, (percentage_spec 3).1 (by decide)⟩,
   ⟨by decide, (percentage_spec 5).2.1 (by decide)⟩,
   ⟨by decide, (percentage_spec 4).2.2.1 (by decide)⟩⟩

/-- C9: the width of the fill bar is `activeStep / (steps.length - 1) * 100` percent,
that is `25 * activeStep`, with no clamp: it lies between `0` and `100` for
`activeStep ≤ steps.length - 1`, and at `activeStep = steps.length` it is `125`,
above `100`. -/
theorem fillWidth_spec (activeStep : Nat) :
    fillWidth activeStep = (activeStep : ℚ) / ((steps.length : ℚ) - 1) * 100 ∧
    fillWidth activeStep = 25 * (activeStep : ℚ) ∧
    (activeStep ≤ steps.length - 1 → 0 ≤ fillWidth activeStep ∧ fillWidth activeStep ≤ 100) ∧
    (activeStep = steps.length → fillWidth activeStep = 125 ∧ 100 < fillWidth activeStep) := by
  have h25 : fillWidth activeStep = 25 * (activeStep : ℚ) := by
    simp only [fillWidth, steps_length]
    push_cast
    ring
  refine ⟨rfl, h25, fun h => ?_, fun h => ?_⟩
  · rw [h25]
    have h4 : (activeStep : ℚ) ≤ 4 := by
      have : activeStep ≤ 4 := by simpa [steps_length] using h
      exact_mod_cast this
    have h0 : (0 : ℚ) ≤ (activeStep : ℚ) := Nat.cast_nonneg _
    constructor <;> linarith
  · rw [h25, h, steps_length]
    norm_num

theorem fillWidth_spec_witness :
    (3 ≤ steps.length - 1 ∧ 0 ≤ fillWidth 3 ∧ fillWidth 3 ≤ 100) ∧
    (5 = steps.length ∧ fillWidth 5 = 125 ∧ 100 < fillWidth 5) :=
  ⟨⟨by decide, (fillWidth_spec 3).2.2.1 (by decide)⟩,
   ⟨rfl, (fillWidth_spec 5).2.2.2 rfl⟩⟩

/-! ## Rendering -/

/-- C5: a marker `idx` at step `activeStep` is in exactly one of three states.
It shows the check mark, on the green fill, iff `idx < activeStep` or
`activeStep = steps.length` (completed); it shows the emphasis glyph, on the
neutral fill, iff `idx = activeStep` and `activeStep ≠ steps.length` (active); it
shows no glyph, on the neutral fill, iff neither holds (pending). The completed and
the active condition never hold together. -/
theorem marker_spec (idx activeStep : Nat) :
    (markerGlyph idx activeStep = some Glyph.tick ↔
      (idx < activeStep ∨ activeStep = steps.length)) ∧
    (markerGlyph idx activeStep = some Glyph.emoji ↔
      (idx = activeStep ∧ activeStep ≠ steps.length)) ∧
    (markerGlyph idx activeStep = none ↔
      (¬ (idx < activeStep ∨ activeStep = steps.length) ∧
       ¬ (idx = activeStep ∧ activeStep ≠ steps.length))) ∧
    (markerClass idx activeStep = "bg-green-500 border-green-500 text-white" ↔
      (idx < activeStep ∨ activeStep = steps.length)) ∧
    (markerClass idx activeStep = "bg-white border-blue-300 text-blue-300" ↔
      ¬ (idx < activeStep ∨ activeStep = steps.length)) ∧
    ¬ ((idx < activeStep ∨ activeStep = steps.length) ∧
       (idx = activeStep ∧ activeStep ≠ steps.length)) := by
  have hstr : ("bg-green-500 border-green-500 text-white" : String)
      ≠ "bg-white border-blue-300 text-blue-300" := by decide
  by_cases h1 : activeStep = steps.length
  · by_cases h2 : idx < activeStep <;> by_cases h3 : activeStep = idx <;>
      simp [markerGlyph, markerClass, isCompleted, isLastStep, h1, h2, h3]
  · by_cases h2 : idx < activeStep
    · have h3 : activeStep ≠ idx := by omega
      have h4 : idx ≠ activeStep := by omega
      simp [markerGlyph, markerClass, isCompleted, isLastStep, h1, h2, h3, h4]
    · by_cases h3 : activeStep = idx
      · subst h3
        simp [markerGlyph, markerClass, isCompleted, isLastStep, h1, hstr.symm]
      · have h4 : idx ≠ activeStep := fun h => h3 h.symm
        simp [markerGlyph, markerClass, isCompleted, isLastStep, h1, h2, h3, h4, hstr.symm]

/-- C6: for `activeStep ≤ steps.length`, the Next/Submit button is rendered iff
`activeStep < steps.length` and the Restart button iff `activeStep = steps.length`,
so exactly one of them is rendered; the first is labelled `Submit` iff
`activeStep = steps.length - 1` and `Next` iff `activeStep < steps.length - 1`. -/
theorem buttons_spec (activeStep : Nat) (h : activeStep ≤ steps.length) :
    ((primaryButton activeStep).isSome = true ↔ activeStep < steps.length) ∧
    ((restartButton activeStep).isSome = true ↔ activeStep = steps.length) ∧
    (primaryButton activeStep).isSome = !(restartButton activeStep).isSome ∧
    (primaryButton activeStep = some "Submit" ↔ activeStep = steps.length - 1) ∧
    (primaryButton activeStep = some "Next" ↔ activeStep < steps.length - 1) ∧
    (restartButton activeStep = some "Restart" ↔ activeStep = steps.length) := by
  rw [steps_length] at h
  interval_cases activeStep <;> simp [primaryButton, restartButton, steps_length]

theorem buttons_spec_witness :
    (4 ≤ steps.length) ∧
    ((primaryButton 4).isSome = true ↔ 4 < steps.length) ∧
    ((restartButton 4).isSome = true ↔ 4 = steps.length) ∧
    (primaryButton 4).isSome = !(restartButton 4).isSome ∧
    (primaryButton 4 = some "Submit" ↔ 4 = steps.length - 1) ∧
    (primaryButton 4 = some "Next" ↔ 4 < steps.length - 1) ∧
    (restartButton 4 = some "Restart" ↔ 4 = steps.length) :=
  ⟨by decide, buttons_spec 4 (by decide)⟩

/-- C10, as stated, fails: after the first click the render that React commits
before the effect runs is a state the component passes through in which the stored
`progress` is `0` while `percentage activeStep` is `25`; it has the same
`activeStep` and `showPopup` as the state after the effect, and a different
tree. -/
theorem progress_drift_before_effect :
    Occurs (renderPass (handleNext mount)) ∧
    (renderPass (handleNext mount)).progress = 0 ∧
    percentage (renderPass (handleNext mount)).activeStep = 25 ∧
    (renderPass (handleNext mount)).progress
      ≠ percentage (renderPass (handleNext mount)).activeStep ∧
    (renderPass (handleNext mount)).activeStep = (dispatch .next mount).activeStep ∧
    (renderPass (handleNext mount)).showPopup = (dispatch .next mount).showPopup ∧
    render (355 / 113) (renderPass (handleNext mount))
      ≠ render (355 / 113) (dispatch .next mount) := by
  have h : percentage 1 = 25 := by rw [percentage_lt 1 (by decide)]; rfl
  refine ⟨Occurs.rendered .next Reachable.mount, ?_⟩
  rw [rendered_next_mount, dispatch_next_mount]
  refine ⟨rfl, h, ?_, rfl, rfl, ?_⟩
  · rw [h]
    decide
  · intro hv
    have ho := congrArg View.gaugeOffset hv
    simp only [render, strokeDashoffset, circumference, normalizedRadius, radius, stroke] at ho
    norm_num at ho

/-- C10, amended: in every state reached by events, each followed by its render and
the effect, the stored `progress` equals `percentage activeStep`, and there the
rendered tree is the function `renderFrom` of `activeStep` and `showPopup`
alone. -/
theorem progress_no_drift (pi : ℚ) (s : State) (hs : Reachable s) :
    s.progress = percentage s.activeStep ∧
    render pi s = renderFrom pi s.activeStep s.showPopup := by
  have h : s.progress = percentage s.activeStep := by
    have hs := settled_of_reachable hs
    cases hs with
    | running k n hk => rfl
    | popup id n => exact (percentage_ge _ (Nat.le_refl _)).symm
    | done id n => exact (percentage_ge _ (Nat.le_refl _)).symm
  refine ⟨h, ?_⟩
  simp only [render, renderFrom, gaugeLabel, h]

theorem progress_no_drift_witness :
    (run [.next, .next, .next, .restart, .next]).progress
      = percentage (run [.next, .next, .next, .restart, .next]).activeStep ∧
    render (355 / 113) (run [.next, .next, .next, .restart, .next])
      = renderFrom (355 / 113) (run [.next, .next, .next, .restart, .next]).activeStep
          (run [.next, .next, .next, .restart, .next]).showPopup :=
  progress_no_drift _ _ (reachable_run _)

end ProgressBar
